import Mathlib

/-!
Shallow embedding of the ACME work-items extraction bot
(`ACME_Work_items_extraction.py` and `wincred.py`).

Python scalars that can sit in the configuration table are modelled by
`PyVal`; optional values (`None` in Python) by `Option`; raised exceptions
by an explicit error type `PyErr` threaded through `Except` or returned
alongside an event trace.  Stateful collaborators (the web site, the
credential store, the database, the SMTP server) are modelled as pure
functions and event traces.
-/

namespace Acme

/-- Python scalar values as they occur in the `Value` column of the
configuration table read by pandas from Excel.  An empty Excel cell is a
float NaN, hence `pyfloat` (any float, including NaN).  `type(v) == str`
and `type(v) == int` in the source correspond to `pystr`/`pyint`. -/
inductive PyVal where
  | pystr (s : String)
  | pyint (n : Int)
  | pyfloat
  deriving DecidableEq, Repr

/-- One row of the `Settings` sheet of the configuration workbook:
columns `Name` and `Value`. -/
structure ConfigRow where
  name : String
  value : PyVal
  deriving DecidableEq, Repr

/-- The configuration table (`config = read_config()` in the source). -/
abbrev Config := List ConfigRow

/-- `config[config[Name] == key][Value].values` : the values of all rows
whose `Name` equals `key`, in table order. -/
def configValues (config : Config) (key : String) : List PyVal :=
  (config.filter (fun r => r.name == key)).map ConfigRow.value

/-- The Python comparison `v != ''`: only the empty string compares equal
to `''`; ints and floats are never equal to it. -/
def pyNeString (v : PyVal) : Bool :=
  match v with
  | .pystr s => s != ""
  | _ => true

/-- `type(v) == str or type(v) == int` from line 48 of the source. -/
def isStrOrInt (v : PyVal) : Bool :=
  match v with
  | .pystr _ => true
  | .pyint _ => true
  | .pyfloat => false

/-- `read_config_value(key, config)` (source lines 38-51): returns the
single matching `Value` when exactly one row matches, the value is not the
empty string, and its type is `str` or `int`; otherwise returns `None`. -/
def read_config_value (key : String) (config : Config) : Option PyVal :=
  match configValues config key with
  | [v] => if pyNeString v && isStrOrInt v then some v else none
  | _ => none

/-- C4: `read_config_value(key)` returns the stored value unchanged exactly
when the key matches exactly one row, that row's value is non-empty and of
string or integer type; in every other case it returns `None` (absent). -/
theorem read_config_value_correct (config : Config) (key : String) (v : PyVal) :
    read_config_value key config = some v ↔
      (configValues config key = [v] ∧ pyNeString v = true ∧ isStrOrInt v = true) := by
  unfold read_config_value
  rcases h : configValues config key with _ | ⟨x, _ | ⟨y, rest⟩⟩
  · simp
  · constructor
    · intro hx
      by_cases hc : (pyNeString x && isStrOrInt x) = true
      · simp only [hc, if_true, Option.some.injEq] at hx
        subst hx
        simp only [Bool.and_eq_true] at hc
        exact ⟨rfl, hc.1, hc.2⟩
      · simp [hc] at hx
    · rintro ⟨hv, h1, h2⟩
      injection hv with hv _
      subst hv
      simp [h1, h2]
  · simp

/-- Decidable equality for `Except`, used to evaluate the embedding on
concrete fixtures. -/
instance instDecEqExcept {ε α : Type} [DecidableEq ε] [DecidableEq α] :
    DecidableEq (Except ε α) := fun x y =>
  match x, y with
  | .error a, .error b =>
    if h : a = b then .isTrue (congrArg Except.error h)
    else .isFalse (fun hc => h (by injection hc))
  | .ok a, .ok b =>
    if h : a = b then .isTrue (congrArg Except.ok h)
    else .isFalse (fun hc => h (by injection hc))
  | .error _, .ok _ => .isFalse (fun hc => Except.noConfusion hc)
  | .ok _, .error _ => .isFalse (fun hc => Except.noConfusion hc)

/-! ## Errors raised by the Python code -/

/-- The exceptions the embedded code can raise.  `businessExc` is the
`BusinessException` class defined at the top of the source; `exc` is a
plain `Exception` (used by `login` on a non-200 POST); the remaining
constructors stand for the built-in exceptions the interpreter raises:
`typeError` (unpacking `None`, subscripting `None`, concatenating a
non-string), `attrError` (attribute access on `None` / missing column
attribute), `keyError` (missing tag attribute / missing column),
`valueError` (pandas column-count mismatch), `requestsError` (requests
rejects a non-string URL), `argumentError` (ctypes rejects a non-string
credential name). -/
inductive PyErr where
  | businessExc (msg : String)
  | exc (msg : String)
  | typeError
  | attrError
  | keyError
  | valueError
  | requestsError
  | argumentError
  deriving DecidableEq, Repr

/-- The check `if BusinessException in str(type(ex))` performed by `main`
(line 244): true exactly for `BusinessException` instances. -/
def isBusinessExc : PyErr → Bool
  | .businessExc _ => true
  | _ => false

/-- `str(ex)` : the message of an exception.  For `BusinessException` and
plain `Exception` this is exactly the constructor message; for built-in
exceptions a representative message text. -/
def errMsg : PyErr → String
  | .businessExc m => m
  | .exc m => m
  | .typeError => "cannot unpack non-iterable NoneType"
  | .attrError => "NoneType object has no attribute"
  | .keyError => "value"
  | .valueError => "columns passed, passed data had different width"
  | .requestsError => "Invalid URL"
  | .argumentError => "argument 1: wrong type"

/-! ## HTML pages and the paginated scraper -/

/-- One cell of a table row: a `<td>` (`isTd = true`) or a `<th>`
(`isTd = false`), with its text content. -/
structure Cell where
  isTd : Bool
  text : String
  deriving DecidableEq, Repr

/-- A `<tr>` element: its cells in document order. -/
abbrev Tr := List Cell

/-- Python `str.strip()`: remove leading and trailing whitespace. -/
def pyStrip (s : String) : String :=
  String.mk (((s.data.dropWhile Char.isWhitespace).reverse.dropWhile
    Char.isWhitespace).reverse)

/-- `[ele.text.strip() for ele in row.find_all('td')]` (lines 120-121):
the stripped texts of the `<td>` cells of a row.  A header row holding
only `<th>` cells yields the empty list. -/
def trCols (tr : Tr) : List String :=
  (tr.filter Cell.isTd).map (fun c => pyStrip c.text)

/-- Outcome of `active_pg.findNextSibling('li').find('a').get('href')`
inside the `try` of lines 127-130:
`raises` — some step raised (missing current-page marker, missing sibling
`<li>`, missing `<a>`), caught by the bare `except`, so `next_url = ''`;
`hrefAbsent` — the `<a>` has no `href` attribute, `.get` returns `None`;
`href s` — the attribute value `s`. -/
inductive NextLookup where
  | raises
  | hrefAbsent
  | href (s : String)
  deriving DecidableEq, Repr

/-- The pagination control of a page.  `noControl` means
`soup.find('ul', 'page-numbers')` is `None`, in which case line 126
(`pg.find(...)`, outside the `try`) raises an uncaught `AttributeError`. -/
inductive Pagination where
  | noControl
  | control (lookup : NextLookup)
  deriving DecidableEq, Repr

/-- A fetched page as the scraper sees it: the HTTP status code, the rows
of the first `<table>` (`none` when the page has no table, in which case
`table_body.find_all('tr')` raises), the texts of all `<th>` elements on
the page (`soup.find_all('th')`), and the pagination control. -/
structure Page where
  status : Nat
  table : Option (List Tr)
  ths : List String
  pagination : Pagination
  deriving DecidableEq, Repr

/-- The authenticated session as the scraper uses it: a map from URL
strings to the pages the site serves. -/
abbrev Session := String → Page

/-- The Python truth of `next_url != ''` where `next_url` is `None`, an
int, or a string: only the empty string is equal to `''`. -/
def pyNeEmptyOpt : Option PyVal → Bool
  | some v => pyNeString v
  | none => true

/-- Result of the `while condition` loop of lines 106-136. -/
inductive LoopOut where
  | ok (rowData : List (List String)) (lastPage : Page)
  | err (e : PyErr)
  | fuelOut
  deriving Repr

/-- The scrape loop (lines 106-136), fuel-indexed since the Python `while`
has no termination guarantee.  `url` is the Python variable `url`
(`None` or a scalar), `rowData` the accumulator, `trace` the list of URLs
fetched so far.  Each iteration: fetch (error on a missing URL, non-string
URL, or non-200 status), append the `td` texts of every `<tr>` of the
table, look up the next-page href, and either continue with it or stop
when it is `''`. -/
def scrapeLoop (session : Session) (url : Option PyVal)
    (rowData : List (List String)) (trace : List String) :
    Nat → List String × LoopOut
  | 0 => (trace, .fuelOut)
  | fuel + 1 =>
    match url with
    | none => (trace, .err (.businessExc "Unable to identify the URL for extraction."))
    | some (.pystr s) =>
      let page := session s
      let trace := trace ++ [s]
      if page.status != 200 then
        (trace, .err (.businessExc "Unable to extract data from provided URL."))
      else
        match page.table with
        | none => (trace, .err .attrError)
        | some trs =>
          let rowData := rowData ++ trs.map trCols
          match page.pagination with
          | .noControl => (trace, .err .attrError)
          | .control lookup =>
            let next_url : Option PyVal :=
              match lookup with
              | .raises => some (.pystr "")
              | .hrefAbsent => none
              | .href s => some (.pystr s)
            if pyNeEmptyOpt next_url then
              scrapeLoop session next_url rowData trace fuel
            else
              (trace, .ok rowData page)
    | some _ => (trace, .err .requestsError)

/-- The rows the scraper extracts from the page at `u`: one entry per
`<tr>` of its table. -/
def pageRows (session : Session) (u : String) : List (List String) :=
  ((session u).table.getD []).map trCols

/-- Lines 139-142: `for i in soup.find_all('th'): headers.append(i.text.strip())`
applied to the last fetched page. -/
def scrapeHeaders (p : Page) : List String :=
  p.ths.map pyStrip

/-! ## pandas DataFrame construction and filtering -/

/-- The relevant fragment of a pandas DataFrame: named columns and rows of
optional cell values (`none` is NaN). -/
structure DataFrame where
  cols : List String
  rows : List (List (Option String))
  deriving DecidableEq, Repr

/-- The width pandas infers from list-of-lists data: the maximum row
length. -/
def rowWidth (rowData : List (List String)) : Nat :=
  rowData.foldr (fun r acc => max r.length acc) 0

/-- A data row aligned against `w` columns: present values in position,
NaN-padding on the right for a short row. -/
def padRow (r : List String) (w : Nat) : List (Option String) :=
  r.map some ++ List.replicate (w - r.length) none

/-- `pd.DataFrame(row_data, columns=headers)` (line 145): with empty data
an empty frame over `headers`; otherwise pandas pads ragged rows with NaN
to the maximal width and raises `ValueError` when that width differs from
the number of column names passed. -/
def mkDataFrame (rowData : List (List String)) (headers : List String) :
    Except PyErr DataFrame :=
  if rowData.isEmpty then .ok ⟨headers, []⟩
  else if rowWidth rowData = headers.length then
    .ok ⟨headers, rowData.map (fun r => padRow r headers.length)⟩
  else .error .valueError

/-- `results[results['Status'] == 'Open']` (line 146): `KeyError` when no
column is named `Status`; otherwise keep the rows whose value in the first
`Status` column equals `'Open'` (NaN compares unequal). -/
def statusFilter (df : DataFrame) : Except PyErr DataFrame :=
  match df.cols.findIdx? (fun c => c == "Status") with
  | none => .error .keyError
  | some i => .ok ⟨df.cols, df.rows.filter (fun r => r.getD i none == some "Open")⟩

/-- Select the entries of `xs` whose mask bit is true
(`results.loc[:, mask]` style boolean selection). -/
def maskList {α : Type} (mask : List Bool) (xs : List α) : List α :=
  ((mask.zip xs).filter (fun p => p.fst)).map (fun p => p.snd)

/-- `results.loc[:, results.columns != 'Actions']` (line 148): drop every
column named `Actions`, keeping all other columns and their values. -/
def dropActions (df : DataFrame) : DataFrame :=
  let mask := df.cols.map (fun c => c != "Actions")
  ⟨maskList mask df.cols, df.rows.map (fun r => maskList mask r)⟩

/-- Lines 138-149: what `scraping` does after the loop — build the frame
from the accumulated rows and the last page headers, filter to
`Status == 'Open'`, drop the `Actions` columns. -/
def postScrape (rowData : List (List String)) (headers : List String) :
    Except PyErr DataFrame :=
  match mkDataFrame rowData headers with
  | .error e => .error e
  | .ok df =>
    match statusFilter df with
    | .error e => .error e
    | .ok df2 => .ok (dropActions df2)

/-- `scraping(session)` (lines 95-149): returns the list of fetched URLs
(in fetch order) together with `none` when the loop ran out of fuel, or
the raised error / final filtered DataFrame. -/
def scraping (config : Config) (session : Session) (fuel : Nat) :
    List String × Option (Except PyErr DataFrame) :=
  match scrapeLoop session (read_config_value "extract_url" config) [] [] fuel with
  | (trace, .fuelOut) => (trace, none)
  | (trace, .err e) => (trace, some (.error e))
  | (trace, .ok rowData lastPage) =>
    (trace, some (postScrape rowData (scrapeHeaders lastPage)))

/-- A page is fetchable and parseable: HTTP 200 and it holds a table. -/
def pageOk (p : Page) : Bool :=
  p.status == 200 && p.table.isSome

/-- The next-page lookup fails in one of the ways the spec enumerates as
normal exhaustion: the lookup raises (missing current-page marker sibling
or missing link, caught by the bare `except`), or the href is the empty
string. -/
def lookupExhausted (p : Page) : Bool :=
  p.pagination == .control .raises || p.pagination == .control (.href "")

/-- `chainOk session urls`: the pages at `urls` form a pagination chain —
every page is OK, each page's pagination control yields the next URL in
the list (a non-empty href), and the last page's lookup fails in one of
the normal-exhaustion ways. -/
def chainOk (session : Session) : List String → Bool
  | [] => false
  | [u] => pageOk (session u) && lookupExhausted (session u)
  | u :: v :: rest =>
    pageOk (session u) && v != "" &&
      (session u).pagination == .control (.href v) &&
      chainOk session (v :: rest)

/-- On a pagination chain the scrape loop, given one unit of fuel per
page, fetches exactly the chain URLs in order, accumulates every page's
extracted rows in order, and stops normally at the last page. -/
theorem scrapeLoop_chain (session : Session) :
    ∀ (urls : List String), chainOk session urls = true →
    ∀ (rowData : List (List String)) (trace : List String),
    scrapeLoop session (some (.pystr (urls.headD ""))) rowData trace urls.length
      = (trace ++ urls,
         .ok (rowData ++ (urls.map (pageRows session)).flatten)
            (session (urls.getLastD ""))) := by
  intro urls
  induction urls with
  | nil => intro h; simp [chainOk] at h
  | cons u rest ih =>
    intro h rowData trace
    match rest with
    | [] =>
      simp only [chainOk, Bool.and_eq_true, pageOk, lookupExhausted, Bool.or_eq_true,
        beq_iff_eq] at h
      obtain ⟨⟨hst, htb⟩, hlk⟩ := h
      obtain ⟨trs, htrs⟩ := Option.isSome_iff_exists.mp htb
      rcases hlk with hlk | hlk <;>
        simp [scrapeLoop, hst, htrs, hlk, pyNeEmptyOpt, pyNeString, pageRows]
    | v :: rest' =>
      simp only [chainOk, Bool.and_eq_true, pageOk, beq_iff_eq] at h
      obtain ⟨⟨⟨⟨hst, htb⟩, hv⟩, hlk⟩, hch⟩ := h
      obtain ⟨trs, htrs⟩ := Option.isSome_iff_exists.mp htb
      have hrec := ih hch (rowData ++ trs.map trCols) (trace ++ [u])
      simp only [List.headD, List.length_cons] at hrec
      simp only [List.headD, List.length_cons]
      rw [scrapeLoop]
      simp only [hst, htrs, hlk]
      have hv' : pyNeEmptyOpt (some (.pystr v)) = true := by
        simp [pyNeEmptyOpt, pyNeString]
        intro hc
        subst hc
        simp at hv
      simp only [bne_self_eq_false, Bool.false_eq_true, if_false, hv', if_true, hrec]
      refine congrArg₂ Prod.mk ?_ (congrArg₂ LoopOut.ok ?_ ?_)
      · simp [List.append_assoc]
      · simp [pageRows, htrs, List.append_assoc]
      · simp [List.getLastD_cons]

/-- When `mkDataFrame` succeeds, the columns are exactly the passed
headers and every accumulated row is aligned positionally against them
(NaN-padded on the right when short). -/
theorem mkDataFrame_ok (rowData : List (List String)) (headers : List String)
    (df : DataFrame) (h : mkDataFrame rowData headers = .ok df) :
    df.cols = headers ∧
      df.rows = rowData.map (fun r => padRow r headers.length) := by
  unfold mkDataFrame at h
  by_cases he : rowData.isEmpty
  · rw [if_pos he] at h
    injection h with h
    subst h
    rw [List.isEmpty_iff] at he
    subst he
    exact ⟨rfl, rfl⟩
  · rw [if_neg he] at h
    by_cases hw : rowWidth rowData = headers.length
    · rw [if_pos hw] at h
      injection h with h
      subst h
      exact ⟨rfl, rfl⟩
    · rw [if_neg hw] at h
      cases h

/-- Boolean column selection with the mask `xs.map p` is filtering by
`p`. -/
theorem maskList_map_filter {α : Type} (p : α → Bool) (xs : List α) :
    maskList (xs.map p) xs = xs.filter p := by
  induction xs with
  | nil => rfl
  | cons a xs ih =>
    by_cases h : p a = true <;>
      simp only [maskList, List.map_cons, List.zip_cons_cons, List.filter_cons, h,
        if_true, if_false, List.map_cons, Bool.false_eq_true] at ih ⊢ <;>
      simp [h, ih]

/-- C1: on any pagination chain in which every page yields a next-page
link except the last, whose lookup fails (raising lookup or empty href),
the scrape loop fetches each page exactly once, in order, and terminates
with normal exhaustion (`LoopOut.ok`), not an error; `scraping` therefore
issues exactly the chain URLs as fetches (3 for a 3-page fixture). -/
theorem scraping_chain_terminates (config : Config) (session : Session)
    (urls : List String) (hchain : chainOk session urls = true)
    (hnd : urls.Nodup)
    (hurl : read_config_value "extract_url" config = some (.pystr (urls.headD ""))) :
    scrapeLoop session (read_config_value "extract_url" config) [] [] urls.length
        = (urls, .ok ((urls.map (pageRows session)).flatten)
            (session (urls.getLastD ""))) ∧
    (scraping config session urls.length).fst = urls ∧
    ∀ u ∈ urls, (scraping config session urls.length).fst.count u = 1 := by
  have hloop := scrapeLoop_chain session urls hchain [] []
  rw [← hurl] at hloop
  simp only [List.nil_append] at hloop
  refine ⟨hloop, ?_, ?_⟩
  · simp [scraping, hloop]
  · intro u hu
    simp only [scraping, hloop]
    exact List.count_eq_one_of_mem hnd hu

/-- C3: on any pagination chain, `scraping` builds its records from the
header cells of the **last** fetched page only, and every accumulated row
of every page is aligned positionally against those last-page headers. -/
theorem scraping_last_page_headers (config : Config) (session : Session)
    (urls : List String) (hchain : chainOk session urls = true)
    (hurl : read_config_value "extract_url" config = some (.pystr (urls.headD ""))) :
    scraping config session urls.length
        = (urls, some (postScrape ((urls.map (pageRows session)).flatten)
            (scrapeHeaders (session (urls.getLastD ""))))) ∧
    ∀ df, mkDataFrame ((urls.map (pageRows session)).flatten)
          (scrapeHeaders (session (urls.getLastD ""))) = .ok df →
      df.cols = scrapeHeaders (session (urls.getLastD "")) ∧
      df.rows = ((urls.map (pageRows session)).flatten).map
          (fun r => padRow r (scrapeHeaders (session (urls.getLastD ""))).length) := by
  have hloop := scrapeLoop_chain session urls hchain [] []
  rw [← hurl] at hloop
  simp only [List.nil_append] at hloop
  constructor
  · simp [scraping, hloop]
  · intro df hdf
    exact mkDataFrame_ok _ _ df hdf

/-- C2: whenever `scraping` returns a DataFrame, that frame contains no
`Actions` column, and its rows are exactly the accumulated rows whose
`Status` field equals `Open`, with every non-`Actions` column and its
values preserved by the boolean column mask. -/
theorem scraping_filters_open (config : Config) (session : Session) (fuel : Nat)
    (df : DataFrame)
    (h : (scraping config session fuel).snd = some (Except.ok df)) :
    "Actions" ∉ df.cols ∧
    ∃ rowData lastPage j rows₀,
      (scrapeLoop session (read_config_value "extract_url" config) [] [] fuel).snd
          = LoopOut.ok rowData lastPage ∧
      mkDataFrame rowData (scrapeHeaders lastPage)
          = .ok ⟨scrapeHeaders lastPage, rows₀⟩ ∧
      (scrapeHeaders lastPage).findIdx? (fun c => c == "Status") = some j ∧
      df.cols = (scrapeHeaders lastPage).filter (fun c => c != "Actions") ∧
      df.rows = (rows₀.filter (fun r => r.getD j none == some "Open")).map
          (maskList ((scrapeHeaders lastPage).map (fun c => c != "Actions"))) := by
  unfold scraping at h
  rcases hloop : scrapeLoop session (read_config_value "extract_url" config) [] [] fuel
    with ⟨trace, out⟩
  rw [hloop] at h
  cases out with
  | fuelOut => simp at h
  | err e => simp at h
  | ok rowData lastPage =>
    simp only [Option.some.injEq] at h
    unfold postScrape at h
    rcases hmk : mkDataFrame rowData (scrapeHeaders lastPage) with e | ⟨c0, r0⟩
    · rw [hmk] at h; cases h
    · rw [hmk] at h
      obtain ⟨hc0, _⟩ := mkDataFrame_ok rowData (scrapeHeaders lastPage) ⟨c0, r0⟩ hmk
      simp only at hc0
      subst hc0
      simp only at h
      unfold statusFilter at h
      rcases hidx : (DataFrame.mk (scrapeHeaders lastPage) r0).cols.findIdx?
          (fun c => c == "Status") with _ | j
      · rw [hidx] at h; cases h
      · rw [hidx] at h
        simp only at h
        injection h with h
        subst h
        simp only at hidx
        refine ⟨?_, rowData, lastPage, j, r0, rfl, hmk, hidx, ?_, ?_⟩
        · simp [dropActions, maskList_map_filter, List.mem_filter]
        · simp [dropActions, maskList_map_filter]
        · rfl

/-- C10: the loop appends one accumulator entry for every `<tr>` element
of every page; a header row holding only `<th>` cells contributes the
empty entry; `mkDataFrame` turns that entry into a record with every
field missing, and only the `Status == Open` filter excludes it — the
frame built before the filter still holds it. -/
theorem scraping_header_row_entries (session : Session) (urls : List String)
    (hchain : chainOk session urls = true)
    (u : String) (hu : u ∈ urls)
    (tr : Tr) (htr : tr ∈ (session u).table.getD [])
    (hth : ∀ c ∈ tr, c.isTd = false) :
    scrapeLoop session (some (.pystr (urls.headD ""))) [] [] urls.length
        = (urls, .ok ((urls.map (pageRows session)).flatten)
            (session (urls.getLastD ""))) ∧
    ((urls.map (pageRows session)).flatten).length
        = (urls.map (fun v => ((session v).table.getD []).length)).sum ∧
    trCols tr = [] ∧
    [] ∈ (urls.map (pageRows session)).flatten ∧
    (∀ w : Nat, ∀ x ∈ padRow [] w, x = none) ∧
    (∀ H df j, mkDataFrame ((urls.map (pageRows session)).flatten) H = .ok df →
      H.findIdx? (fun c => c == "Status") = some j →
      padRow [] H.length ∈ df.rows ∧
      ∀ df2, statusFilter df = .ok df2 → padRow [] H.length ∉ df2.rows) := by
  have hloop := scrapeLoop_chain session urls hchain [] []
  simp only [List.nil_append] at hloop
  have hcols : trCols tr = [] := by
    simp only [trCols, List.map_eq_nil_iff, List.filter_eq_nil_iff]
    intro c hc
    simp [hth c hc]
  have hmem : ([] : List String) ∈ (urls.map (pageRows session)).flatten := by
    rw [List.mem_flatten]
    refine ⟨pageRows session u, List.mem_map_of_mem _ hu, ?_⟩
    rw [← hcols]
    exact List.mem_map_of_mem trCols htr
  refine ⟨hloop, ?_, hcols, hmem, ?_, ?_⟩
  · simp only [List.length_flatten, List.map_map]
    congr 1
    apply List.map_congr_left
    intro v _
    simp [pageRows, Function.comp]
  · intro w x hx
    simp only [padRow, List.map_nil, List.nil_append] at hx
    exact List.eq_of_mem_replicate hx
  · intro H df j hmk hidx
    obtain ⟨hc, hr⟩ := mkDataFrame_ok _ _ df hmk
    constructor
    · rw [hr]
      have : padRow [] H.length = padRow ([] : List String) H.length := rfl
      exact List.mem_map_of_mem (fun r => padRow r H.length) hmem
    · intro df2 hsf
      unfold statusFilter at hsf
      rw [hc, hidx] at hsf
      injection hsf with hsf
      subst hsf
      simp only [List.mem_filter]
      rintro ⟨-, habs⟩
      have hrep : ∀ (n k : Nat),
          (List.replicate n (none : Option String)).getD k none = none := by
        intro n
        induction n with
        | zero => intro k; cases k <;> rfl
        | succ n ih =>
          intro k
          cases k with
          | zero => simp [List.replicate]
          | succ k => simp [List.replicate, List.getD_cons_succ, ih k]
      have hnone : (padRow ([] : List String) H.length).getD j none = none := by
        simp only [padRow, List.map_nil, List.nil_append]
        exact hrep _ j
      rw [hnone] at habs
      cases habs

/-! ## A concrete 3-page fixture used by the witnesses -/

/-- The header `<tr>` of the fixture table: six `<th>` cells. -/
def thRow : Tr :=
  [⟨false, "WIID"⟩, ⟨false, "Description"⟩, ⟨false, "Type"⟩,
   ⟨false, "Status"⟩, ⟨false, "Date"⟩, ⟨false, "Actions"⟩]

/-- A data `<tr>` of the fixture table: six `<td>` cells. -/
def dataRow (w d t s dt a : String) : Tr :=
  [⟨true, w⟩, ⟨true, d⟩, ⟨true, t⟩, ⟨true, s⟩, ⟨true, dt⟩, ⟨true, a⟩]

/-- The `<th>` texts of every fixture page. -/
def fixHeaders : List String :=
  ["WIID", "Description", "Type", "Status", "Date", "Actions"]

/-- Page 1 of the fixture: one Open and one Closed row, next link `p2`. -/
def fixPage1 : Page :=
  { status := 200,
    table := some [thRow, dataRow "1" "a" "Task" "Open" "d1" "edit",
                   dataRow "2" "b" "Task" "Closed" "d2" "edit"],
    ths := fixHeaders,
    pagination := .control (.href "p2") }

/-- Page 2 of the fixture: one Open row, next link `p3`. -/
def fixPage2 : Page :=
  { status := 200,
    table := some [thRow, dataRow "3" "c" "Bug" "Open" "d3" "edit"],
    ths := fixHeaders,
    pagination := .control (.href "p3") }

/-- Page 3 of the fixture: one Closed row and no next sibling — the
next-page lookup raises and is caught. -/
def fixPage3 : Page :=
  { status := 200,
    table := some [thRow, dataRow "4" "e" "Bug" "Closed" "d4" "edit"],
    ths := fixHeaders,
    pagination := .control .raises }

/-- The fixture site: `p1 → p2 → p3`. -/
def fixSession : Session := fun u =>
  if u == "p2" then fixPage2 else if u == "p3" then fixPage3 else fixPage1

/-- The fixture configuration: only the extraction URL. -/
def fixConfig : Config := [⟨"extract_url", .pystr "p1"⟩]

/-- The DataFrame `scraping` produces on the fixture. -/
def fixResult : DataFrame :=
  ⟨["WIID", "Description", "Type", "Status", "Date"],
   [[some "1", some "a", some "Task", some "Open", some "d1"],
    [some "3", some "c", some "Bug", some "Open", some "d3"]]⟩

/-- Witness for C1: the 3-page fixture is fetched with exactly 3 requests,
`p1`, `p2`, `p3`, each once, and the loop ends without error. -/
theorem scraping_chain_terminates_witness :
    (scraping fixConfig fixSession 3).fst = ["p1", "p2", "p3"] ∧
    (scraping fixConfig fixSession 3).fst.count "p2" = 1 := by
  have h := scraping_chain_terminates fixConfig fixSession ["p1", "p2", "p3"]
    (by decide) (by decide) (by decide)
  exact ⟨h.2.1, h.2.2 "p2" (by decide)⟩

/-- Witness for C3: on the fixture the headers come from page 3 (the last
page) and all seven accumulated rows are aligned against them. -/
theorem scraping_last_page_headers_witness :
    scraping fixConfig fixSession 3
      = (["p1", "p2", "p3"],
         some (postScrape ((["p1", "p2", "p3"].map (pageRows fixSession)).flatten)
            (scrapeHeaders fixPage3))) := by
  have h := scraping_last_page_headers fixConfig fixSession ["p1", "p2", "p3"]
    (by decide) (by decide)
  exact h.1

/-- Witness for C2: on the fixture, rows 1 and 3 (the Open ones) survive
with the `Actions` column dropped. -/
theorem scraping_filters_open_witness :
    "Actions" ∉ fixResult.cols ∧
    ∃ rowData lastPage j rows₀,
      (scrapeLoop fixSession (read_config_value "extract_url" fixConfig) [] [] 3).snd
          = LoopOut.ok rowData lastPage ∧
      mkDataFrame rowData (scrapeHeaders lastPage)
          = .ok ⟨scrapeHeaders lastPage, rows₀⟩ ∧
      (scrapeHeaders lastPage).findIdx? (fun c => c == "Status") = some j ∧
      fixResult.cols = (scrapeHeaders lastPage).filter (fun c => c != "Actions") ∧
      fixResult.rows = (rows₀.filter (fun r => r.getD j none == some "Open")).map
          (maskList ((scrapeHeaders lastPage).map (fun c => c != "Actions"))) :=
  scraping_filters_open fixConfig fixSession 3 fixResult rfl

/-- Witness for C10: the fixture's `<th>`-only header rows produce empty
accumulator entries which only the status filter removes. -/
theorem scraping_header_row_entries_witness :
    trCols thRow = [] ∧
    [] ∈ (["p1", "p2", "p3"].map (pageRows fixSession)).flatten := by
  have h := scraping_header_row_entries fixSession ["p1", "p2", "p3"] (by decide)
    "p1" (by decide) thRow (by decide) (by decide)
  exact ⟨h.2.2.1, h.2.2.2.1⟩

/-! ## Windows credential store (`wincred.py`) -/

/-- Events on the native credential buffer inside
`wincred.get_generic_credential`. -/
inductive CredEvent where
  | credRead
  | credFree
  deriving DecidableEq, Repr

/-- The OS credential store: a name resolves to `(username, password)`
where the stored `UserName` field may itself be NULL (`none`). -/
abbrev CredStore := String → Option (Option String × String)

/-- `wincred.get_generic_credential(name)` (wincred.py lines 93-117):
`CredReadW` either fails — no matching entry, the function returns `None`
and no buffer was allocated — or yields a buffer whose username/password
are copied out and which the `finally` block then frees. -/
def get_generic_credential (store : CredStore) (name : String) :
    List CredEvent × Option (Option String × String) :=
  match store name with
  | some cred => ([CredEvent.credRead, CredEvent.credFree], some cred)
  | none => ([CredEvent.credRead], none)

/-- A call `wincred.get_generic_credential(x)` where `x` came from a
config lookup: Python `None` is accepted by ctypes as a NULL `LPCWSTR`
and `CredReadW` then fails, so the function returns `None`; a non-string
scalar is rejected by ctypes with an `ArgumentError`. -/
def wincredLookup (store : CredStore) : Option PyVal →
    Except PyErr (Option (Option String × String))
  | some (.pystr s) => .ok (get_generic_credential store s).snd
  | none => .ok none
  | some _ => .error .argumentError

/-! ## Database sink -/

/-- Observable database operations performed by `insert_into_db`.
`closeConnection` is never emitted by the embedded code — the source
never calls `cnxn.close()` — but is part of the event alphabet so that
its absence is expressible. -/
inductive DbEvent where
  | connect (server username : String)
  | openCursor
  | execute (vals : List (Option String))
  | commit
  | closeCursor
  | closeConnection
  deriving DecidableEq, Repr

/-- `row.<name>` attribute access on a pandas row (line 173): the value
in the first column named `name`, or `AttributeError` when no column has
that name. -/
def rowAttr (cols : List String) (r : List (Option String)) (name : String) :
    Except PyErr (Option String) :=
  match cols.findIdx? (fun c => c == name) with
  | some i => .ok (r.getD i none)
  | none => .error .attrError

/-- One `cursor.execute(INSERT ..., row.WIID, row.Description, row.Type,
row.Status, row.Date)` call (lines 172-173); the attribute accesses are
evaluated left to right and the first missing column raises. -/
def execRow (cols : List String) (r : List (Option String)) :
    Except PyErr DbEvent :=
  match rowAttr cols r "WIID", rowAttr cols r "Description", rowAttr cols r "Type",
      rowAttr cols r "Status", rowAttr cols r "Date" with
  | .error e, _, _, _, _ => .error e
  | _, .error e, _, _, _ => .error e
  | _, _, .error e, _, _ => .error e
  | _, _, _, .error e, _ => .error e
  | _, _, _, _, .error e => .error e
  | .ok w, .ok d, .ok t, .ok s, .ok dt => .ok (DbEvent.execute [w, d, t, s, dt])

/-- The insert loop `for index, row in results.iterrows(): cursor.execute(...)`
(lines 171-173): the executes performed so far together with the first
raised error, if any. -/
def execRowsTrace (cols : List String) :
    List (List (Option String)) → List DbEvent × Option PyErr
  | [] => ([], none)
  | r :: rs =>
    match execRow cols r with
    | .error e => ([], some e)
    | .ok ev =>
      match execRowsTrace cols rs with
      | (evs, res) => (ev :: evs, res)

/-- `insert_into_db(results)` (lines 151-177): raises the no-items
`BusinessException` on an empty collection before touching configuration
or database; otherwise resolves credentials (unpacking `None` raises
`TypeError`), checks server/username, connects once, opens a cursor,
executes one insert per row, commits once and closes the cursor — and
never closes the connection. -/
def insert_into_db (results : DataFrame) (config : Config) (store : CredStore) :
    List DbEvent × Option PyErr :=
  if results.rows.length > 0 then
    match wincredLookup store (read_config_value "DB_credential_name" config) with
    | .error e => ([], some e)
    | .ok none => ([], some .typeError)
    | .ok (some (username, _password)) =>
      if (read_config_value "DB_server_name" config).isNone || username.isNone then
        ([], some (.businessExc "Unable to identify required parameters for SQL Server connection."))
      else
        match read_config_value "DB_server_name" config, username with
        | some (.pystr server), some un =>
          match execRowsTrace results.cols results.rows with
          | (evs, some e) =>
            (DbEvent.connect server un :: DbEvent.openCursor :: evs, some e)
          | (evs, none) =>
            (DbEvent.connect server un :: DbEvent.openCursor ::
              (evs ++ [DbEvent.commit, DbEvent.closeCursor]), none)
        | _, _ => ([], some .typeError)
  else
    ([], some (.businessExc "There are no work items available in ACME website to extract"))

/-- A member of a string list is found by `findIdx?` at some index. -/
theorem findIdx_of_mem (name : String) :
    ∀ (cols : List String) (s : Nat), name ∈ cols →
      ∃ i, List.findIdx? (fun c => c == name) cols s = some i := by
  intro cols
  induction cols with
  | nil => intro s h; cases h
  | cons a cols ih =>
    intro s h
    by_cases ha : (a == name) = true
    · exact ⟨s, by rw [List.findIdx?_cons, if_pos ha]⟩
    · have hmem : name ∈ cols := by
        rcases List.mem_cons.mp h with h | h
        · subst h; simp at ha
        · exact h
      obtain ⟨i, hi⟩ := ih (s + 1) hmem
      exact ⟨i, by rw [List.findIdx?_cons, if_neg ha, hi]⟩

/-- When every required column exists, the insert loop executes one
insert per row, in order, and raises nothing. -/
theorem execRowsTrace_ok (cols : List String)
    (hcols : ∀ a ∈ ["WIID", "Description", "Type", "Status", "Date"], a ∈ cols) :
    ∀ rows : List (List (Option String)),
      ∃ evs, execRowsTrace cols rows = (evs, none) ∧
        evs.length = rows.length ∧
        ∀ ev ∈ evs, ∃ vals, ev = DbEvent.execute vals := by
  have hrow : ∀ r, ∃ vals, execRow cols r = .ok (DbEvent.execute vals) := by
    intro r
    obtain ⟨i1, h1⟩ := findIdx_of_mem "WIID" cols 0 (hcols _ (by simp))
    obtain ⟨i2, h2⟩ := findIdx_of_mem "Description" cols 0 (hcols _ (by simp))
    obtain ⟨i3, h3⟩ := findIdx_of_mem "Type" cols 0 (hcols _ (by simp))
    obtain ⟨i4, h4⟩ := findIdx_of_mem "Status" cols 0 (hcols _ (by simp))
    obtain ⟨i5, h5⟩ := findIdx_of_mem "Date" cols 0 (hcols _ (by simp))
    have e1 : rowAttr cols r "WIID" = .ok (r.getD i1 none) := by
      simp [rowAttr, h1]
    have e2 : rowAttr cols r "Description" = .ok (r.getD i2 none) := by
      simp [rowAttr, h2]
    have e3 : rowAttr cols r "Type" = .ok (r.getD i3 none) := by
      simp [rowAttr, h3]
    have e4 : rowAttr cols r "Status" = .ok (r.getD i4 none) := by
      simp [rowAttr, h4]
    have e5 : rowAttr cols r "Date" = .ok (r.getD i5 none) := by
      simp [rowAttr, h5]
    refine ⟨[r.getD i1 none, r.getD i2 none, r.getD i3 none,
             r.getD i4 none, r.getD i5 none], ?_⟩
    unfold execRow
    rw [e1, e2, e3, e4, e5]
  intro rows
  induction rows with
  | nil => exact ⟨[], rfl, rfl, by simp⟩
  | cons r rs ih =>
    obtain ⟨vals, hv⟩ := hrow r
    obtain ⟨evs, hevs, hlen, hall⟩ := ih
    refine ⟨DbEvent.execute vals :: evs, ?_, by simp [hlen], ?_⟩
    · simp only [execRowsTrace, hv, hevs]
    · intro ev hev
      rcases List.mem_cons.mp hev with h | h
      · exact ⟨vals, h⟩
      · exact hall ev h

/-- Anything `execRow` returns successfully is an `execute` event. -/
theorem execRow_ok_shape (cols : List String) (r : List (Option String))
    (ev : DbEvent) (h : execRow cols r = .ok ev) :
    ∃ vals, ev = DbEvent.execute vals := by
  unfold execRow at h
  split at h
  case _ => cases h
  case _ => cases h
  case _ => cases h
  case _ => cases h
  case _ => cases h
  case _ =>
    injection h with h
    exact ⟨_, h.symm⟩

/-- Every event the insert loop emits is an `execute`. -/
theorem execRowsTrace_events (cols : List String) :
    ∀ rows, ∀ ev ∈ (execRowsTrace cols rows).fst,
      ∃ vals, ev = DbEvent.execute vals := by
  intro rows
  induction rows with
  | nil => intro ev hev; cases hev
  | cons r rs ih =>
    intro ev hev
    rcases hr : execRow cols r with e | ev'
    · simp only [execRowsTrace, hr] at hev
      cases hev
    · rcases hrs : execRowsTrace cols rs with ⟨evs, res⟩
      simp only [execRowsTrace, hr, hrs] at hev
      rcases List.mem_cons.mp hev with h | h
      · subst h
        exact execRow_ok_shape cols r _ hr
      · have := ih ev
        rw [hrs] at this
        exact this h

/-- A DB-side fixture configuration with credential name and server. -/
def fixDbConfig : Config :=
  [⟨"DB_credential_name", .pystr "db"⟩, ⟨"DB_server_name", .pystr "srv"⟩]

/-- A fixture credential store holding one entry named `db`. -/
def fixStore : CredStore := fun n =>
  if n == "db" then some (some "u", "pw") else none

/-- A fixture configuration lacking the DB server name. -/
def noServerConfig : Config := [⟨"DB_credential_name", .pystr "db"⟩]

/-- A one-row frame missing most of the five insert columns, so that the
first `cursor.execute` raises. -/
def badDf : DataFrame := ⟨["WIID"], [[some "1"]]⟩

/-- C5 counterexample: on a non-empty collection with the DB server name
absent from configuration, `insert_into_db` raises a `BusinessException`
— so a BusinessError is not raised only when the collection is empty. -/
theorem insert_into_db_nonempty_business_error :
    fixResult.rows.length ≠ 0 ∧
    insert_into_db fixResult noServerConfig fixStore
      = ([], some (.businessExc
          "Unable to identify required parameters for SQL Server connection.")) :=
  ⟨by decide, by decide⟩

/-- C5 (amended): an empty collection raises the no-items
`BusinessException` with no database event at all; a missing server or
username also raises a `BusinessException`; when the collection is
non-empty and credential, server and row columns resolve, the run opens
one connection, executes one insert per row in order, commits exactly
once and raises nothing. -/
theorem insert_into_db_behavior (results : DataFrame) (config : Config)
    (store : CredStore) (cn sv un pw : String)
    (hcred : read_config_value "DB_credential_name" config = some (.pystr cn))
    (hstore : store cn = some (some un, pw))
    (hserver : read_config_value "DB_server_name" config = some (.pystr sv))
    (hcols : ∀ a ∈ ["WIID", "Description", "Type", "Status", "Date"],
        a ∈ results.cols) :
    (results.rows.length = 0 →
      insert_into_db results config store
        = ([], some (.businessExc
            "There are no work items available in ACME website to extract"))) ∧
    (results.rows.length ≠ 0 →
      ∃ evs, insert_into_db results config store
          = (DbEvent.connect sv un :: DbEvent.openCursor ::
              (evs ++ [DbEvent.commit, DbEvent.closeCursor]), none) ∧
        evs.length = results.rows.length ∧
        (∀ ev ∈ evs, ∃ vals, ev = DbEvent.execute vals) ∧
        (DbEvent.connect sv un :: DbEvent.openCursor ::
            (evs ++ [DbEvent.commit, DbEvent.closeCursor])).count DbEvent.commit
          = 1) := by
  constructor
  · intro h0
    unfold insert_into_db
    rw [if_neg (by omega)]
  · intro hne
    obtain ⟨evs, hevs, hlen, hall⟩ := execRowsTrace_ok results.cols hcols results.rows
    have hcommit : DbEvent.commit ∉ evs := by
      intro hmem
      obtain ⟨vals, hv⟩ := hall _ hmem
      cases hv
    refine ⟨evs, ?_, hlen, hall, ?_⟩
    · unfold insert_into_db
      rw [if_pos (by omega), hcred]
      simp only [wincredLookup, get_generic_credential, hstore]
      rw [hserver, if_neg (by simp)]
      dsimp only
      rw [hevs]
    · simp only [List.count_cons, List.count_append]
      rw [List.count_eq_zero.mpr hcommit]
      simp [beq_iff_eq]

/-- C9 counterexample: a fully successful insert run closes the cursor
but never the connection, and a failing insert closes neither — the
claimed unconditional release of both handles does not hold. -/
theorem insert_into_db_leaks_connection :
    insert_into_db fixResult fixDbConfig fixStore
      = ([DbEvent.connect "srv" "u", DbEvent.openCursor,
          DbEvent.execute [some "1", some "a", some "Task", some "Open", some "d1"],
          DbEvent.execute [some "3", some "c", some "Bug", some "Open", some "d3"],
          DbEvent.commit, DbEvent.closeCursor], none) ∧
    DbEvent.closeConnection ∉ (insert_into_db fixResult fixDbConfig fixStore).fst ∧
    insert_into_db badDf fixDbConfig fixStore
      = ([DbEvent.connect "srv" "u", DbEvent.openCursor], some .attrError) ∧
    DbEvent.closeCursor ∉ (insert_into_db badDf fixDbConfig fixStore).fst := by
  refine ⟨by decide, by decide, by decide, by decide⟩

/-- C9 (amended): the OS credential buffer is freed after the copy
whenever it was acquired; `insert_into_db` never closes the database
connection, and when an insert (or anything else) raises, the cursor is
not closed either. -/
theorem resource_release_behavior (store store2 : CredStore) (name : String)
    (hc : ((get_generic_credential store name).snd).isSome = true)
    (results : DataFrame) (config : Config) (evs : List DbEvent)
    (err : Option PyErr)
    (hins : insert_into_db results config store2 = (evs, err)) :
    (get_generic_credential store name).fst
        = [CredEvent.credRead, CredEvent.credFree] ∧
    DbEvent.closeConnection ∉ evs ∧
    (err.isSome = true → DbEvent.closeCursor ∉ evs) := by
  have hcredpart : (get_generic_credential store name).fst
      = [CredEvent.credRead, CredEvent.credFree] := by
    rcases hs : store name with _ | cred
    · simp [get_generic_credential, hs] at hc
    · simp [get_generic_credential, hs]
  refine ⟨hcredpart, ?_⟩
  unfold insert_into_db at hins
  by_cases hlen : results.rows.length > 0
  · rw [if_pos hlen] at hins
    rcases hW : wincredLookup store2 (read_config_value "DB_credential_name" config)
        with e | ocred
    · rw [hW] at hins
      dsimp only at hins
      cases hins
      simp
    · rcases ocred with _ | ⟨username, pw2⟩
      · rw [hW] at hins
        dsimp only at hins
        cases hins
        simp
      · rw [hW] at hins
        dsimp only at hins
        by_cases hready :
            ((read_config_value "DB_server_name" config).isNone || username.isNone) = true
        · rw [if_pos hready] at hins
          cases hins
          simp
        · rw [if_neg hready] at hins
          rcases hS : read_config_value "DB_server_name" config with _ | sv
          · rw [hS] at hready; simp at hready
          · rcases username with _ | un
            · simp at hready
            · rcases sv with s | n | _
              · rw [hS] at hins
                dsimp only at hins
                have hex := execRowsTrace_events results.cols results.rows
                rcases hE : execRowsTrace results.cols results.rows with ⟨evs0, res⟩
                rw [hE] at hex hins
                rcases res with _ | e
                · dsimp only at hins
                  cases hins
                  constructor
                  · intro hmem
                    simp only [List.mem_cons, List.mem_append] at hmem
                    rcases hmem with h | h | h | h
                    · cases h
                    · cases h
                    · obtain ⟨vals, hv⟩ := hex _ h; cases hv
                    · simp at h
                  · intro habs
                    simp at habs
                · dsimp only at hins
                  cases hins
                  constructor
                  · intro hmem
                    simp only [List.mem_cons] at hmem
                    rcases hmem with h | h | h
                    · cases h
                    · cases h
                    · obtain ⟨vals, hv⟩ := hex _ h; cases hv
                  · intro _ hmem
                    simp only [List.mem_cons] at hmem
                    rcases hmem with h | h | h
                    · cases h
                    · cases h
                    · obtain ⟨vals, hv⟩ := hex _ h; cases hv
              · rw [hS] at hins
                dsimp only at hins
                cases hins
                simp
              · rw [hS] at hins
                dsimp only at hins
                cases hins
                simp
  · rw [if_neg hlen] at hins
    cases hins
    simp

/-- Witness for C9: on the fixture store the buffer is read then freed,
and on the failing one-row insert neither handle-closing event occurs. -/
theorem resource_release_behavior_witness :
    (get_generic_credential fixStore "db").fst
        = [CredEvent.credRead, CredEvent.credFree] ∧
    DbEvent.closeConnection ∉ [DbEvent.connect "srv" "u", DbEvent.openCursor] ∧
    ((some PyErr.attrError).isSome = true →
      DbEvent.closeCursor ∉ [DbEvent.connect "srv" "u", DbEvent.openCursor]) :=
  resource_release_behavior fixStore fixStore "db" (by decide) badDf fixDbConfig
    [DbEvent.connect "srv" "u", DbEvent.openCursor] (some .attrError) (by decide)

/-- Witness for C5: on the fixture result set and full DB configuration
the run connects once, inserts the two rows, commits once and closes the
cursor without error. -/
theorem insert_into_db_behavior_witness :
    ∃ evs, insert_into_db fixResult fixDbConfig fixStore
        = (DbEvent.connect "srv" "u" :: DbEvent.openCursor ::
            (evs ++ [DbEvent.commit, DbEvent.closeCursor]), none) ∧
      evs.length = fixResult.rows.length ∧
      (∀ ev ∈ evs, ∃ vals, ev = DbEvent.execute vals) ∧
      (DbEvent.connect "srv" "u" :: DbEvent.openCursor ::
          (evs ++ [DbEvent.commit, DbEvent.closeCursor])).count DbEvent.commit = 1 :=
  (insert_into_db_behavior fixResult fixDbConfig fixStore "db" "srv" "u" "pw"
    (by decide) (by decide) (by decide) (by decide)).2 (by decide)

/-! ## Authenticator -/

/-- The login page and form endpoint as `login` sees them.
`tokenInput = none`: no `<input name="_token">` on the page, so
subscripting the `find` result raises `TypeError`; `some none`: the input
exists but has no `value` attribute, so `['value']` raises `KeyError`;
`some (some tok)`: the fresh token.  `postStatus` is the HTTP status code
of the credential POST. -/
structure LoginSite where
  tokenInput : Option (Option String)
  postStatus : Nat
  deriving DecidableEq, Repr

/-- `login()` (lines 53-92): resolve the login URL and credential name
from configuration, fetch the credential — unpacking a missing entry
raises `TypeError` before the `username is None` check is reached — then
GET the page, extract the token and POST; any status other than exactly
200 raises a plain `Exception`. -/
def login (config : Config) (store : CredStore) (site : LoginSite) :
    Except PyErr Unit :=
  match read_config_value "login_url" config with
  | none => .error (.businessExc "Unable to identify login URL in Config file.")
  | some url =>
    match read_config_value "ACME_credential_name" config with
    | none => .error (.businessExc "Unable to identify ACME credentail name in Config file.")
    | some cred_name =>
      match wincredLookup store (some cred_name) with
      | .error e => .error e
      | .ok none => .error .typeError
      | .ok (some (username, _password)) =>
        match username with
        | none => .error (.businessExc "Login credentials cannot be found in Windows Credential Manager.")
        | some _ =>
          match url with
          | .pystr _ =>
            match site.tokenInput with
            | none => .error .typeError
            | some none => .error .keyError
            | some (some _token) =>
              if site.postStatus != 200 then
                .error (.exc "Unable to login into ACME Website.")
              else .ok ()
          | _ => .error .requestsError

/-- A login fixture configuration with URL and credential name. -/
def c6Config : Config :=
  [⟨"login_url", .pystr "L"⟩, ⟨"ACME_credential_name", .pystr "acme"⟩]

/-- A login fixture store holding the `acme` credential. -/
def c6Store : CredStore := fun n =>
  if n == "acme" then some (some "user", "pw") else none

/-- A login fixture site answering the POST with HTTP 201. -/
def c6Site : LoginSite := ⟨some (some "tok"), 201⟩

/-- A login fixture site answering the POST with HTTP 200. -/
def okSite : LoginSite := ⟨some (some "tok"), 200⟩

/-- A credential store with no entries at all. -/
def emptyStore : CredStore := fun _ => none

/-- C6 counterexample: HTTP 201 is a 200-class status, yet `login` raises
— and it raises a plain `Exception`, which the orchestrator routes to
technical, not business, users. -/
theorem login_rejects_201 :
    c6Site.postStatus = 201 ∧
    login c6Config c6Store c6Site
      = .error (.exc "Unable to login into ACME Website.") ∧
    isBusinessExc (.exc "Unable to login into ACME Website.") = false :=
  ⟨rfl, by decide, rfl⟩

/-- C6 (amended): with URL, credential and token resolving, the
credential POST succeeds exactly when the response status is exactly 200;
any other status (including other 2xx codes) raises a plain `Exception`,
which is not a `BusinessException` and is therefore routed to technical
users. -/
theorem login_status_check (config : Config) (store : CredStore)
    (site : LoginSite) (u cn un pw tok : String)
    (hurl : read_config_value "login_url" config = some (.pystr u))
    (hcn : read_config_value "ACME_credential_name" config = some (.pystr cn))
    (hstore : store cn = some (some un, pw))
    (htok : site.tokenInput = some (some tok)) :
    login config store site
      = (if site.postStatus = 200 then .ok ()
         else .error (.exc "Unable to login into ACME Website.")) ∧
    isBusinessExc (.exc "Unable to login into ACME Website.") = false := by
  constructor
  · unfold login
    rw [hurl, hcn]
    simp only [wincredLookup, get_generic_credential, hstore, htok]
    by_cases h : site.postStatus = 200 <;> simp [h]
  · rfl

/-- Witness for C6: on the fixture with a 200 POST, login succeeds. -/
theorem login_status_check_witness :
    login c6Config c6Store okSite
      = (if okSite.postStatus = 200 then .ok ()
         else .error (.exc "Unable to login into ACME Website.")) ∧
    isBusinessExc (.exc "Unable to login into ACME Website.") = false :=
  login_status_check c6Config c6Store okSite "L" "acme" "user" "pw" "tok"
    (by decide) (by decide) (by decide) (by decide)

/-- C7: when the secret store has no matching entry, the store client
returns `None`, and `login` then raises `TypeError` — the tuple
unpacking on line 67 fails before the `username is None` check on line
68 can raise its `BusinessException` — so no `BusinessException` of any
message is raised.  The code's own line 68-69 documents the intended
behaviour the claim describes. -/
theorem login_missing_credential_type_error (config : Config)
    (store : CredStore) (site : LoginSite) (u cn : String)
    (hurl : read_config_value "login_url" config = some (.pystr u))
    (hcn : read_config_value "ACME_credential_name" config = some (.pystr cn))
    (hstore : store cn = none) :
    login config store site = .error .typeError ∧
    ∀ m, login config store site ≠ .error (.businessExc m) := by
  have h1 : login config store site = .error .typeError := by
    unfold login
    rw [hurl, hcn]
    dsimp only
    simp only [wincredLookup, get_generic_credential, hstore]
  refine ⟨h1, ?_⟩
  intro m hm
  rw [h1] at hm
  injection hm with hm
  cases hm

/-- Witness for C7: on the fixture with an empty credential store the
login fails with `TypeError`, not the credentials-not-found
`BusinessException`. -/
theorem login_missing_credential_type_error_witness :
    login c6Config emptyStore c6Site = .error .typeError ∧
    ∀ m, login c6Config emptyStore c6Site ≠ .error (.businessExc m) :=
  login_missing_credential_type_error c6Config emptyStore c6Site "L" "acme"
    (by decide) (by decide) rfl

/-! ## Notifier -/

/-- An email as handed to the SMTP server: the audience argument, the
recipient list value resolved from configuration, subject, body and
whether a CSV attachment is included. -/
structure Email where
  userType : String
  toVal : PyVal
  subject : String
  body : String
  hasAttachment : Bool
  deriving DecidableEq, Repr

/-- `send_email(user_type, subject, content, ...)` (lines 179-221):
resolve server, port and credential from configuration — unpacking a
missing credential raises `TypeError` — pick the recipient list by
audience, raise a `BusinessException` when server, port, username or
recipients are missing, and otherwise hand the message to SMTP. -/
def send_email (config : Config) (store : CredStore)
    (user_type subject content : String) (hasAttachment : Bool) :
    Except PyErr Email :=
  match wincredLookup store (read_config_value "email_credential_name" config) with
  | .error e => .error e
  | .ok none => .error .typeError
  | .ok (some (username, _password)) =>
    match read_config_value "email_server_name" config,
        read_config_value "email_port" config, username,
        (if user_type == "business" then read_config_value "business_users" config
         else read_config_value "technical_users" config) with
    | some _, some _, some _, some recips =>
      .ok ⟨user_type, recips, subject, content, hasAttachment⟩
    | _, _, _, _ =>
      .error (.businessExc "Unable to identify required parameters for email SMPT settings.")

/-! ## Orchestrator -/

/-- Subject of the process-initiation email. -/
def initSubject : String := "ACME Work items Extraction Process - Initialization"

/-- Subject of the completion email. -/
def complSubject : String := "ACME Work items Extraction Process - Completion"

/-- Subject of the business-failure email. -/
def busExSubject : String := "ACME Work items Extraction Process - Business Exception"

/-- Subject of the technical-failure email. -/
def techExSubject : String := "ACME Work items Extraction Process - Technical Exception"

/-- Body of the initiation email. -/
def initBody : String :=
  "<p>Dear All,</p><p>Please be noted that <b>ACME Work items Extraction Process</b> has been initialized.</p><p>Thanks and Regards,<br>BOT</p>"

/-- Body of the completion email. -/
def complBody : String :=
  "<p>Dear All,</p><p><b>ACME Work items Extraction Process</b> has been completed. Please find attached file with extracted work items.</p><p>Thanks and Regards,<br>BOT</p>"

/-- Body of a failure notification: contains `str(ex)`. -/
def failBody (ex : PyErr) : String :=
  "<p>Dear All,</p><p>Please be noted that bot execution failed due to below error.</p><p>Error Message: "
    ++ errMsg ex ++ "</p><p>Thanks and Regards,<br>BOT</p>"

/-- The `except` handler of `main` (lines 243-253): route by whether the
type name of the exception contains `BusinessException`; the notification
call itself may raise, in which case the new exception escapes `main`
unhandled. -/
def handleEx (config : Config) (store : CredStore) (sent : List Email)
    (ex : PyErr) : List Email × Option PyErr :=
  if isBusinessExc ex then
    match send_email config store "business" busExSubject (failBody ex) false with
    | .ok m => (sent ++ [m], none)
    | .error e2 => (sent, some e2)
  else
    match send_email config store "technical" techExSubject (failBody ex) false with
    | .ok m => (sent ++ [m], none)
    | .error e2 => (sent, some e2)

/-- The external world of one run: configuration, credential store, the
login endpoint and the site's pages (the authenticated session is
modelled by `pages`). -/
structure World where
  config : Config
  store : CredStore
  site : LoginSite
  pages : Session

/-- `main()` (lines 224-253): initiation email, login, scrape, insert,
completion email — any exception flows to the handler, which mails the
corresponding audience.  Returns `none` when the scrape loop exceeds the
fuel; otherwise the list of emails handed to SMTP in order, and the
exception escaping `main`, if any. -/
def main (w : World) (fuel : Nat) : Option (List Email × Option PyErr) :=
  match send_email w.config w.store "business" initSubject initBody false with
  | .error e => some (handleEx w.config w.store [] e)
  | .ok m1 =>
    match login w.config w.store w.site with
    | .error e => some (handleEx w.config w.store [m1] e)
    | .ok _ =>
      match (scraping w.config w.pages fuel).snd with
      | none => none
      | some (.error e) => some (handleEx w.config w.store [m1] e)
      | some (.ok results) =>
        match insert_into_db results w.config w.store with
        | (_, some e) => some (handleEx w.config w.store [m1] e)
        | (_, none) =>
          match send_email w.config w.store "business" complSubject complBody true with
          | .ok m2 => some ([m1, m2], none)
          | .error e => some (handleEx w.config w.store [m1] e)

/-- An email is a failure notification when it carries one of the two
exception subjects. -/
def isFailEmail (m : Email) : Bool :=
  m.subject == busExSubject || m.subject == techExSubject

/-- SMTP-side fixture configuration: server, port, credential and both
recipient lists, but no `login_url`. -/
def mailConfig : Config :=
  [⟨"email_server_name", .pystr "smtp"⟩, ⟨"email_port", .pyint 25⟩,
   ⟨"email_credential_name", .pystr "mail"⟩,
   ⟨"business_users", .pystr "biz"⟩, ⟨"technical_users", .pystr "tech"⟩]

/-- Fixture store holding the mail credential. -/
def mailStore : CredStore := fun n =>
  if n == "mail" then some (some "mailer", "pw") else none

/-- A world whose notifier works but whose `login_url` is absent. -/
def mailWorld : World := ⟨mailConfig, mailStore, okSite, fun _ => fixPage3⟩

/-- A world with an entirely empty configuration: even the notifier
cannot resolve its parameters. -/
def brokenWorld : World := ⟨[], emptyStore, okSite, fun _ => fixPage3⟩

/-- C8 counterexample: with an empty configuration the initiation email
raises, the failure handler's own email raises too, and `main` ends with
an escaping exception and zero emails — a silent failure; and in the
`login_url`-absent scenario with a working notifier, two emails (not
one) go to business recipients, because the initiation email also goes
to business. -/
theorem main_notification_gaps :
    main brokenWorld 1 = some ([], some PyErr.typeError) ∧
    main mailWorld 1
      = some ([⟨"business", .pystr "biz", initSubject, initBody, false⟩,
               ⟨"business", .pystr "biz", busExSubject,
                failBody (.businessExc "Unable to identify login URL in Config file."),
                false⟩], none) ∧
    ([(⟨"business", .pystr "biz", initSubject, initBody, false⟩ : Email),
       ⟨"business", .pystr "biz", busExSubject,
        failBody (.businessExc "Unable to identify login URL in Config file."),
        false⟩].filter (fun m => m.userType == "business")).length = 2 :=
  ⟨by decide, by decide, by decide⟩

/-- The failure-notification email the `except` handler of `main` sends
for the exception `ex` it caught: routed to business with the business
subject exactly when `ex` is a `BusinessException`, to technical with
the technical subject otherwise, with `str(ex)` embedded in the body. -/
def failEmailFor (rb rt : PyVal) (ex : PyErr) : Email :=
  if isBusinessExc ex then ⟨"business", rb, busExSubject, failBody ex, false⟩
  else ⟨"technical", rt, techExSubject, failBody ex, false⟩

/-- C8 (amended): when the notifier's parameters resolve for both
audiences, `main` never lets an exception escape and sends at most one
failure-notification email; whichever pipeline step actually raises —
login, scrape or insert, each case stated separately over the exception
`ex` that step returns — the emails are exactly the initiation email
plus `failEmailFor rb rt ex`, the single failure notification routed to
business exactly for a `BusinessException` and to technical otherwise,
with the error message in the body; a fully successful run sends the
initiation and completion emails and no failure notification; and when
`login_url` is absent every email (the initiation one included) goes to
business and none to technical, with exactly one failure notification
among them.  When the notifier itself fails, a failure can escape with
no email (see the counterexample). -/
theorem main_notifications (w : World) (fuel : Nat) (rb rt : PyVal)
    (hb : ∀ s c a, send_email w.config w.store "business" s c a
        = .ok ⟨"business", rb, s, c, a⟩)
    (ht : ∀ s c a, send_email w.config w.store "technical" s c a
        = .ok ⟨"technical", rt, s, c, a⟩)
    (emails : List Email) (esc : Option PyErr)
    (h : main w fuel = some (emails, esc)) :
    esc = none ∧
    (emails.filter isFailEmail).length ≤ 1 ∧
    (∀ ex, (failEmailFor rb rt ex).userType
        = (if isBusinessExc ex then "business" else "technical") ∧
      (failEmailFor rb rt ex).subject
        = (if isBusinessExc ex then busExSubject else techExSubject) ∧
      (failEmailFor rb rt ex).body = failBody ex) ∧
    (∀ ex, login w.config w.store w.site = .error ex →
      emails = [⟨"business", rb, initSubject, initBody, false⟩,
                failEmailFor rb rt ex] ∧
      emails.filter isFailEmail = [failEmailFor rb rt ex]) ∧
    (∀ ex, login w.config w.store w.site = .ok () →
      (scraping w.config w.pages fuel).snd = some (.error ex) →
      emails = [⟨"business", rb, initSubject, initBody, false⟩,
                failEmailFor rb rt ex] ∧
      emails.filter isFailEmail = [failEmailFor rb rt ex]) ∧
    (∀ ex results, login w.config w.store w.site = .ok () →
      (scraping w.config w.pages fuel).snd = some (.ok results) →
      (insert_into_db results w.config w.store).snd = some ex →
      emails = [⟨"business", rb, initSubject, initBody, false⟩,
                failEmailFor rb rt ex] ∧
      emails.filter isFailEmail = [failEmailFor rb rt ex]) ∧
    (∀ results, login w.config w.store w.site = .ok () →
      (scraping w.config w.pages fuel).snd = some (.ok results) →
      (insert_into_db results w.config w.store).snd = none →
      emails = [⟨"business", rb, initSubject, initBody, false⟩,
                ⟨"business", rb, complSubject, complBody, true⟩] ∧
      emails.filter isFailEmail = []) ∧
    (read_config_value "login_url" w.config = none →
      emails.filter (fun m => m.userType == "technical") = [] ∧
      (emails.filter isFailEmail).length = 1 ∧
      ∀ m ∈ emails, m.userType = "business") := by
  have hfInit : ∀ r : PyVal,
      isFailEmail ⟨"business", r, initSubject, initBody, false⟩ = false := by
    intro r
    simp [isFailEmail, initSubject, busExSubject, techExSubject]
  have hfCompl : ∀ r : PyVal,
      isFailEmail ⟨"business", r, complSubject, complBody, true⟩ = false := by
    intro r
    simp [isFailEmail, complSubject, busExSubject, techExSubject]
  have hfFail : ∀ ex, isFailEmail (failEmailFor rb rt ex) = true := by
    intro ex
    unfold failEmailFor
    by_cases hex : isBusinessExc ex = true
    · rw [if_pos hex]; simp [isFailEmail]
    · rw [if_neg hex]; simp [isFailEmail]
  have hchar : ∀ ex, (failEmailFor rb rt ex).userType
      = (if isBusinessExc ex then "business" else "technical") ∧
    (failEmailFor rb rt ex).subject
      = (if isBusinessExc ex then busExSubject else techExSubject) ∧
    (failEmailFor rb rt ex).body = failBody ex := by
    intro ex
    unfold failEmailFor
    by_cases hex : isBusinessExc ex = true <;> simp [hex]
  have hfilter : ∀ ex,
      ([⟨"business", rb, initSubject, initBody, false⟩,
        failEmailFor rb rt ex].filter isFailEmail) = [failEmailFor rb rt ex] := by
    intro ex
    simp [List.filter_cons, hfInit rb, hfFail ex]
  have hcore : ∀ (ex : PyErr) (emails : List Email) (esc : Option PyErr),
      some (handleEx w.config w.store
          [⟨"business", rb, initSubject, initBody, false⟩] ex) = some (emails, esc) →
      esc = none ∧
      emails = [⟨"business", rb, initSubject, initBody, false⟩,
                failEmailFor rb rt ex] := by
    intro ex emails esc hh
    unfold handleEx at hh
    by_cases hex : isBusinessExc ex = true
    · rw [if_pos hex, hb busExSubject (failBody ex) false] at hh
      simp only [Option.some.injEq, Prod.mk.injEq] at hh
      obtain ⟨h1, h2⟩ := hh
      subst h1; subst h2
      refine ⟨rfl, ?_⟩
      unfold failEmailFor
      rw [if_pos hex]
      rfl
    · rw [if_neg hex, ht techExSubject (failBody ex) false] at hh
      simp only [Option.some.injEq, Prod.mk.injEq] at hh
      obtain ⟨h1, h2⟩ := hh
      subst h1; subst h2
      refine ⟨rfl, ?_⟩
      unfold failEmailFor
      rw [if_neg hex]
      rfl
  unfold main at h
  rw [hb initSubject initBody false] at h
  dsimp only at h
  rcases hlog : login w.config w.store w.site with e | u
  · rw [hlog] at h
    dsimp only at h
    obtain ⟨hesc, hemails⟩ := hcore e emails esc h
    subst hesc
    subst hemails
    refine ⟨rfl, ?_, hchar, ?_, ?_, ?_, ?_, ?_⟩
    · rw [hfilter e]; simp
    · intro ex hex
      injection hex with hex
      subst hex
      exact ⟨rfl, hfilter e⟩
    · intro ex hok _
      cases hok
    · intro ex results hok _ _
      cases hok
    · intro results hok _ _
      cases hok
    · intro hnone
      have hbe : isBusinessExc e = true := by
        unfold login at hlog
        rw [hnone] at hlog
        injection hlog with hlog
        rw [← hlog]
        rfl
      refine ⟨?_, ?_, ?_⟩
      · unfold failEmailFor
        rw [if_pos hbe]
        simp [List.filter_cons]
      · rw [hfilter e]; rfl
      · intro m hm
        unfold failEmailFor at hm
        rw [if_pos hbe] at hm
        rcases List.mem_cons.mp hm with h1 | h1
        · subst h1; rfl
        · rcases List.mem_cons.mp h1 with h2 | h2
          · subst h2; rfl
          · cases h2
  · rw [hlog] at h
    dsimp only at h
    have hurl : read_config_value "login_url" w.config = none → False := by
      intro hnone
      unfold login at hlog
      rw [hnone] at hlog
      cases hlog
    rcases hscr : (scraping w.config w.pages fuel).snd with _ | res
    · rw [hscr] at h
      cases h
    · rw [hscr] at h
      rcases res with e | results
      · dsimp only at h
        obtain ⟨hesc, hemails⟩ := hcore e emails esc h
        subst hesc
        subst hemails
        refine ⟨rfl, ?_, hchar, ?_, ?_, ?_, ?_, ?_⟩
        · rw [hfilter e]; simp
        · intro ex hex
          cases hex
        · intro ex hok hex
          injection hex with hex
          injection hex with hex
          subst hex
          exact ⟨rfl, hfilter e⟩
        · intro ex results2 hok hscr2 _
          injection hscr2 with hscr2
          cases hscr2
        · intro results2 hok hscr2 _
          injection hscr2 with hscr2
          cases hscr2
        · intro hnone
          exact (hurl hnone).elim
      · dsimp only at h
        rcases hins : insert_into_db results w.config w.store with ⟨evts, oerr⟩
        rw [hins] at h
        rcases oerr with _ | e
        · dsimp only at h
          rw [hb complSubject complBody true] at h
          dsimp only at h
          simp only [Option.some.injEq, Prod.mk.injEq] at h
          obtain ⟨h1, h2⟩ := h
          subst h1
          subst h2
          refine ⟨rfl, ?_, hchar, ?_, ?_, ?_, ?_, ?_⟩
          · simp [List.filter_cons, hfInit rb, hfCompl rb]
          · intro ex hex
            cases hex
          · intro ex hok hex
            injection hex with hex
            cases hex
          · intro ex results2 hok hscr2 hex
            injection hscr2 with hscr2
            injection hscr2 with hscr2
            subst hscr2
            rw [hins] at hex
            dsimp only at hex
            cases hex
          · intro results2 hok hscr2 hins2
            injection hscr2 with hscr2
            injection hscr2 with hscr2
            subst hscr2
            refine ⟨rfl, ?_⟩
            simp [List.filter_cons, hfInit rb, hfCompl rb]
          · intro hnone
            exact (hurl hnone).elim
        · dsimp only at h
          obtain ⟨hesc, hemails⟩ := hcore e emails esc h
          subst hesc
          subst hemails
          refine ⟨rfl, ?_, hchar, ?_, ?_, ?_, ?_, ?_⟩
          · rw [hfilter e]; simp
          · intro ex hex
            cases hex
          · intro ex hok hex
            injection hex with hex
            cases hex
          · intro ex results2 hok hscr2 hex
            injection hscr2 with hscr2
            injection hscr2 with hscr2
            subst hscr2
            rw [hins] at hex
            dsimp only at hex
            injection hex with hex
            subst hex
            exact ⟨rfl, hfilter e⟩
          · intro results2 hok hscr2 hins2
            injection hscr2 with hscr2
            injection hscr2 with hscr2
            subst hscr2
            rw [hins] at hins2
            dsimp only at hins2
            cases hins2
          · intro hnone
            exact (hurl hnone).elim

/-- Fixture configuration resolving both the login and the notifier:
the `acme` credential name is configured but absent from the store, so
login raises the (technical) `TypeError`. -/
def techConfig : Config :=
  [⟨"login_url", .pystr "L"⟩, ⟨"ACME_credential_name", .pystr "acme"⟩] ++ mailConfig

/-- A world whose notifier works and whose login fails with a technical
error (missing store entry → `TypeError`). -/
def techWorld : World := ⟨techConfig, mailStore, okSite, fun _ => fixPage3⟩

/-- Witness for C8: on the `login_url`-absent world the failing run's
emails are the initiation email plus the failure email for the actual
`BusinessException`, routed to business; on the missing-credential world
the run's `TypeError` is routed to technical — both routings follow the
exception each run actually raised. -/
theorem main_notifications_witness :
    ([(⟨"business", PyVal.pystr "biz", initSubject, initBody, false⟩ : Email),
      ⟨"business", PyVal.pystr "biz", busExSubject,
        failBody (PyErr.businessExc "Unable to identify login URL in Config file."),
        false⟩]
      = [⟨"business", PyVal.pystr "biz", initSubject, initBody, false⟩,
         failEmailFor (PyVal.pystr "biz") (PyVal.pystr "tech")
           (PyErr.businessExc "Unable to identify login URL in Config file.")] ∧
     ([(⟨"business", PyVal.pystr "biz", initSubject, initBody, false⟩ : Email),
       ⟨"business", PyVal.pystr "biz", busExSubject,
         failBody (PyErr.businessExc "Unable to identify login URL in Config file."),
         false⟩].filter isFailEmail)
      = [failEmailFor (PyVal.pystr "biz") (PyVal.pystr "tech")
          (PyErr.businessExc "Unable to identify login URL in Config file.")]) ∧
    ([(⟨"business", PyVal.pystr "biz", initSubject, initBody, false⟩ : Email),
      ⟨"technical", PyVal.pystr "tech", techExSubject, failBody PyErr.typeError,
        false⟩]
      = [⟨"business", PyVal.pystr "biz", initSubject, initBody, false⟩,
         failEmailFor (PyVal.pystr "biz") (PyVal.pystr "tech") PyErr.typeError] ∧
     ([(⟨"business", PyVal.pystr "biz", initSubject, initBody, false⟩ : Email),
       ⟨"technical", PyVal.pystr "tech", techExSubject, failBody PyErr.typeError,
         false⟩].filter isFailEmail)
      = [failEmailFor (PyVal.pystr "biz") (PyVal.pystr "tech") PyErr.typeError]) :=
  ⟨(main_notifications mailWorld 1 (.pystr "biz") (.pystr "tech")
      (fun _ _ _ => rfl) (fun _ _ _ => rfl)
      [⟨"business", .pystr "biz", initSubject, initBody, false⟩,
       ⟨"business", .pystr "biz", busExSubject,
         failBody (.businessExc "Unable to identify login URL in Config file."),
         false⟩]
      none (by decide)).2.2.2.1
      (PyErr.businessExc "Unable to identify login URL in Config file.") (by decide),
   (main_notifications techWorld 1 (.pystr "biz") (.pystr "tech")
      (fun _ _ _ => rfl) (fun _ _ _ => rfl)
      [⟨"business", .pystr "biz", initSubject, initBody, false⟩,
       ⟨"technical", .pystr "tech", techExSubject, failBody PyErr.typeError, false⟩]
      none (by decide)).2.2.2.1 PyErr.typeError (by decide)⟩

end Acme
